import Mathlib

/-!
Shallow embedding of the fleet-management inspection scoring and
risk-classification engine (backend/inspections/models/scoring.py,
post_trip.py, health_fitness.py, behavior.py, vehicle_checks.py,
documentation.py), together with proofs settling the claims about it.

Conventions of the embedding:
* Python `Decimal` / `float` values are modelled as `ℚ`; integer counters as `ℕ`.
* `round(x, 2)` is modelled by `round2` below (round to the nearest multiple
  of 1/100; at an exact half we round up where Python rounds to even — no
  claim in scope touches an exact tie).
* A nullable field / possibly-absent related record is an `Option`; the
  pervasive `try/except` pattern around an absent related record is modelled
  by matching on that `Option`.
* A reverse foreign-key query set (`.all()`) is a `List`; an absent set is `[]`.
* Text choices (`'pass'`/`'fail'`, `'yes'`/`'no'`, ...) are inductive types.
-/

/-- Model of Python `round(x, 2)`: round to the nearest hundredth. -/
def round2 (q : ℚ) : ℚ := (round (q * 100) : ℤ) / 100

/-- Model of Python `round(x, 1)`: round to the nearest tenth. -/
def round1 (q : ℚ) : ℚ := (round (q * 10) : ℤ) / 10

/-! ### Text-choice enumerations -/

/-- `HealthCheckStatus` text choices (`'pass'` / `'fail'`). -/
inductive HealthCheckStatus where
  | pass
  | fail
deriving DecidableEq, Fintype

/-- `CheckStatus` text choices for vehicle checks (`'pass'` / `'fail'`). -/
inductive CheckStatus where
  | pass
  | fail
deriving DecidableEq, Fintype

/-- `YesNoChoice` text choices (`'yes'` / `'no'`). -/
inductive YesNoChoice where
  | yes
  | no
deriving DecidableEq, Fintype

/-- `DocumentStatus` text choices (`'valid'` / `'invalid'`). -/
inductive DocumentStatus where
  | valid
  | invalid
deriving DecidableEq, Fintype

/-- `SectionRiskLevel` text choices. -/
inductive SectionRiskLevel where
  | no_risk
  | very_low_risk
  | low_risk
  | high_risk
deriving DecidableEq, Fintype

/-- `RiskStatus` text choices (overall pre-trip risk). -/
inductive RiskStatus where
  | no_risk
  | very_low_risk
  | low_risk
  | high_risk
deriving DecidableEq, Fintype

/-- `FinalRiskLevel` text choices. -/
inductive FinalRiskLevel where
  | no_risk
  | very_low_risk
  | low_risk
  | high_risk
deriving DecidableEq, Fintype

/-- `ScoreLevel` text choices. -/
inductive ScoreLevel where
  | excellent
  | good
  | fair
  | poor
deriving DecidableEq, Fintype

/-- `FinalStatus` text choices. -/
inductive FinalStatus where
  | passed
  | failed
  | needs_review
deriving DecidableEq, Fintype

/-- `BehaviorStatus` text choices for trip behavior monitoring. -/
inductive BehaviorStatus where
  | compliant
  | violation
  | none
deriving DecidableEq, Fintype

/-- Three-tier `RiskLevel` text choices of the rolling tracker (post_trip.py). -/
inductive RiskLevel where
  | low
  | medium
  | high
deriving DecidableEq, Fintype

/-! ### Raw data model (inputs of the engine) -/

/-- `HealthFitnessCheck` fields read by the scoring engine.
`adequate_rest` is a nullable boolean; the two status char fields may be
blank (`none` models Python `None` / the empty string, both falsy). -/
structure HealthFitnessCheck where
  adequate_rest : Option Bool
  alcohol_test_status : Option HealthCheckStatus
  temperature_check_status : Option HealthCheckStatus
  fit_for_duty : Bool
  medication_status : Bool
  no_health_impairment : Bool
  fatigue_checklist_completed : Bool
deriving DecidableEq

/-- `DocumentationCompliance` fields read by the scoring engine.
`time_briefing_conducted` is a nullable `TimeField` (any present time is
truthy); the two emergency-contact fields are char fields (truthy iff
non-empty). -/
structure DocumentationCompliance where
  certificate_of_fitness_valid : YesNoChoice
  certificate_of_fitness : DocumentStatus
  safety_briefing_provided : YesNoChoice
  rtsa_clearance : YesNoChoice
  time_briefing_conducted : Option Nat
  emergency_contact_employer : String
  emergency_contact_government : String
  road_tax_valid : Bool
  insurance_valid : Bool
  trip_authorization_signed : Bool
  logbook_present : Bool
  driver_handbook_present : Bool
  permits_valid : Bool
  ppe_available : Bool
  route_familiarity : Bool
  emergency_procedures_known : Bool
  gps_activated : Bool
deriving DecidableEq

/-- One row of a vehicle-check section (`BaseVehicleCheck` subclasses). -/
structure VehicleCheck where
  check_item : String
  status : CheckStatus
deriving DecidableEq

/-- One `TripBehaviorMonitoring` row. `violation_points` is auto-calculated
from the fixed per-item table on save, hence non-negative. -/
structure TripBehavior where
  behavior_item : String
  status : BehaviorStatus
  violation_points : Nat
deriving DecidableEq

/-- One `DrivingBehaviorCheck` row (`status` is a boolean). -/
structure DrivingBehavior where
  behavior_item : String
  status : Bool
deriving DecidableEq

/-- `PostTripReport` boolean facts read by the post-checklist scorer. -/
structure PostTripReport where
  vehicle_fault_submitted : Bool
  final_inspection_signed : Bool
  compliance_with_policy : Bool
  attitude_cooperation : Bool
  incidents_recorded : Bool
deriving DecidableEq

/-- The snapshot of one `PreTripInspection`'s related records that the
scoring engine reads. `Option` marks a possibly-absent one-to-one record;
the check/behavior sections are reverse foreign-key sets. -/
structure Inspection where
  health_fitness : Option HealthFitnessCheck
  documentation : Option DocumentationCompliance
  exterior_checks : List VehicleCheck
  engine_fluid_checks : List VehicleCheck
  interior_cabin_checks : List VehicleCheck
  functional_checks : List VehicleCheck
  safety_equipment_checks : List VehicleCheck
  brakes_steering_checks : List VehicleCheck
  trip_behaviors : List TripBehavior
  driving_behaviors : List DrivingBehavior
  post_trip : Option PostTripReport
deriving DecidableEq

/-! ### Module-level scoring configuration (scoring.py) -/

/-- `SCORE_PER_QUESTION = Decimal('1')`. -/
def SCORE_PER_QUESTION : ℚ := 1

/-- `TOTAL_PRECHECKLIST_QUESTIONS = 64`. -/
def TOTAL_PRECHECKLIST_QUESTIONS : ℕ := 64

/-- `TOTAL_POSTCHECKLIST_QUESTIONS = 28`. -/
def TOTAL_POSTCHECKLIST_QUESTIONS : ℕ := 28

/-- `get_section_risk_level` (scoring.py lines 133-142). -/
def get_section_risk_level (percentage : ℚ) : SectionRiskLevel :=
  if 100 ≤ percentage then SectionRiskLevel.no_risk
  else if 85 ≤ percentage then SectionRiskLevel.very_low_risk
  else if 70 ≤ percentage then SectionRiskLevel.low_risk
  else SectionRiskLevel.high_risk

/-- `get_final_risk_level` (scoring.py lines 1002-1011). -/
def get_final_risk_level (percentage : ℚ) : FinalRiskLevel :=
  if 100 ≤ percentage then FinalRiskLevel.no_risk
  else if 85 ≤ percentage then FinalRiskLevel.very_low_risk
  else if 70 ≤ percentage then FinalRiskLevel.low_risk
  else FinalRiskLevel.high_risk

/-- `get_final_status_display` for `FinalStatus` choices. -/
def get_final_status_display : FinalStatus → String
  | FinalStatus.passed => "Passed"
  | FinalStatus.failed => "Failed"
  | FinalStatus.needs_review => "Needs Review"

namespace PreTripScoreSummary

/-- `PreTripScoreSummary.determine_risk_status` (scoring.py lines 481-490). -/
def determine_risk_status (percentage : ℚ) : RiskStatus :=
  if 100 ≤ percentage then RiskStatus.no_risk
  else if 85 ≤ percentage then RiskStatus.very_low_risk
  else if 70 ≤ percentage then RiskStatus.low_risk
  else RiskStatus.high_risk

/-- `PreTripScoreSummary.determine_score_level` (scoring.py lines 728-737). -/
def determine_score_level (percentage : ℚ) : ScoreLevel :=
  if 90 ≤ percentage then ScoreLevel.excellent
  else if 75 ≤ percentage then ScoreLevel.good
  else if 60 ≤ percentage then ScoreLevel.fair
  else ScoreLevel.poor

end PreTripScoreSummary

namespace RiskScoreSummary

/-- A pre-trip inspection of one driver as seen by the rolling tracker:
its `inspection_date` (modelled as a day number) and its trip-behavior rows. -/
structure InspectionRecord where
  inspection_date : Int
  trip_behaviors : List TripBehavior
deriving DecidableEq

/-- `RiskScoreSummary.calculate_30_day_points` (post_trip.py lines 132-148):
filter the driver's inspections to those with
`inspection_date ≥ now − 30 days`, then accumulate each inspection's
trip-behavior `violation_points` into a running total. -/
def calculate_30_day_points (driver_inspections : List InspectionRecord) (now : Int) : Nat :=
  let thirty_days_ago := now - 30
  let recent_inspections :=
    driver_inspections.filter (fun i => thirty_days_ago ≤ i.inspection_date)
  recent_inspections.foldl
    (fun total inspection =>
      inspection.trip_behaviors.foldl (fun t behavior => t + behavior.violation_points) total)
    0

/-- `RiskScoreSummary.determine_risk_level` (post_trip.py lines 150-162). -/
def determine_risk_level (points : Nat) : RiskLevel :=
  if 10 ≤ points then RiskLevel.high
  else if 4 ≤ points then RiskLevel.medium
  else RiskLevel.low

end RiskScoreSummary

/-! ### Health & Fitness: the legacy per-model scorer (health_fitness.py) -/

namespace HealthFitnessCheck

/-- `HealthFitnessCheck.calculate_score` (health_fitness.py lines 124-162):
1 point per question over a fixed `max_score = 7`; returns
`(earned, max_score, section_percentage)`. -/
def calculate_score (self : HealthFitnessCheck) : Nat × Nat × ℚ :=
  let earned : Nat := 0
  let max_score : Nat := 7
  let earned := if self.adequate_rest = some true then earned + 1 else earned
  let earned := if self.alcohol_test_status = some HealthCheckStatus.pass then earned + 1 else earned
  let earned := if self.fit_for_duty then earned + 1 else earned
  let earned := if self.no_health_impairment then earned + 1 else earned
  let earned := if self.fatigue_checklist_completed then earned + 1 else earned
  let earned := if self.temperature_check_status = some HealthCheckStatus.pass then earned + 1 else earned
  let earned := if self.medication_status = false then earned + 1 else earned
  let section_percentage :=
    if 0 < max_score then round1 ((earned : ℚ) / (max_score : ℚ) * 100) else 0
  (earned, max_score, section_percentage)

end HealthFitnessCheck

/-! ### Pre-trip section scorers (scoring.py) -/

/-- The sixteen yes/no outcomes counted by `calculate_documentation_score_new`
(scoring.py lines 550-647), in source order; `questions` is incremented once
per entry. (The source performs sixteen increments, although the nominal
documentation count used on the missing-record path is 17.) -/
def DocumentationCompliance.score_new_answers (doc : DocumentationCompliance) : List Bool :=
  [ doc.certificate_of_fitness_valid == YesNoChoice.yes
      || doc.certificate_of_fitness == DocumentStatus.valid,
    doc.road_tax_valid,
    doc.insurance_valid,
    doc.trip_authorization_signed,
    doc.logbook_present,
    doc.driver_handbook_present,
    doc.permits_valid,
    doc.ppe_available,
    doc.route_familiarity,
    doc.emergency_procedures_known,
    doc.gps_activated,
    doc.safety_briefing_provided == YesNoChoice.yes,
    doc.rtsa_clearance == YesNoChoice.yes,
    doc.time_briefing_conducted.isSome,
    doc.emergency_contact_employer != "",
    doc.emergency_contact_government != "" ]

/-- The `check_type` keys accepted by `calculate_vehicle_check_score_new`
(`check_mapping`, scoring.py lines 656-663). -/
inductive VehicleCheckType where
  | exterior
  | engine
  | interior
  | functional
  | safety
  | brakes_steering
deriving DecidableEq, Fintype

/-- The related queryset that `check_mapping[check_type]` resolves to. -/
def Inspection.checks_of (insp : Inspection) : VehicleCheckType → List VehicleCheck
  | VehicleCheckType.exterior => insp.exterior_checks
  | VehicleCheckType.engine => insp.engine_fluid_checks
  | VehicleCheckType.interior => insp.interior_cabin_checks
  | VehicleCheckType.functional => insp.functional_checks
  | VehicleCheckType.safety => insp.safety_equipment_checks
  | VehicleCheckType.brakes_steering => insp.brakes_steering_checks

/-- The `(questions, passed)` counters accumulated by
`calculate_health_fitness_score_new` over a present health & fitness record,
with each block in source order (scoring.py lines 499-539). -/
def HealthFitnessCheck.score_new_counts (health_check : HealthFitnessCheck) : Nat × Nat :=
  let questions : Nat := 0
  let passed : Nat := 0
  -- Adequate Rest (counted only when answered)
  let (questions, passed) :=
    match health_check.adequate_rest with
    | Option.some rest => (questions + 1, if rest then passed + 1 else passed)
    | Option.none => (questions, passed)
  -- Alcohol Test (counted only when the status string is non-empty)
  let (questions, passed) :=
    match health_check.alcohol_test_status with
    | Option.some status =>
        (questions + 1, if status = HealthCheckStatus.pass then passed + 1 else passed)
    | Option.none => (questions, passed)
  -- Temperature Check (counted only when the status string is non-empty)
  let (questions, passed) :=
    match health_check.temperature_check_status with
    | Option.some status =>
        (questions + 1, if status = HealthCheckStatus.pass then passed + 1 else passed)
    | Option.none => (questions, passed)
  -- Fit for Duty
  let questions := questions + 1
  let passed := if health_check.fit_for_duty then passed + 1 else passed
  -- No Health Impairment
  let questions := questions + 1
  let passed := if health_check.no_health_impairment then passed + 1 else passed
  -- Fatigue Checklist
  let questions := questions + 1
  let passed := if health_check.fatigue_checklist_completed then passed + 1 else passed
  -- Medication Status (no medication is positive)
  let questions := questions + 1
  let passed := if health_check.medication_status = false then passed + 1 else passed
  (questions, passed)

namespace PreTripScoreSummary

/-- `PreTripScoreSummary.calculate_health_fitness_score_new` (scoring.py
lines 492-548). The `none` branch is the `except` path taken when the
inspection has no linked health & fitness record. -/
def calculate_health_fitness_score_new (health_fitness : Option HealthFitnessCheck) :
    ℚ × ℚ × Nat × ℚ :=
  match health_fitness with
  | Option.none => (0, 7, 7, 0)
  | Option.some health_check =>
      let (questions, passed) := health_check.score_new_counts
      let earned := (passed : ℚ) * SCORE_PER_QUESTION
      let max_score := (questions : ℚ) * SCORE_PER_QUESTION
      let percentage_of_total :=
        round2 (earned / (TOTAL_PRECHECKLIST_QUESTIONS : ℚ) * 100)
      (earned, max_score, questions, percentage_of_total)

/-- `PreTripScoreSummary.calculate_documentation_score_new` (scoring.py
lines 550-649). The `none` branch is the `except` path for a missing
documentation record. -/
def calculate_documentation_score_new (documentation : Option DocumentationCompliance) :
    ℚ × ℚ × Nat × ℚ :=
  match documentation with
  | Option.none => (0, 17, 17, 0)
  | Option.some doc =>
      let answers := doc.score_new_answers
      let questions := answers.length
      let passed := answers.count true
      let earned := (passed : ℚ) * SCORE_PER_QUESTION
      let max_score := (questions : ℚ) * SCORE_PER_QUESTION
      let percentage_of_total :=
        round2 (earned / (TOTAL_PRECHECKLIST_QUESTIONS : ℚ) * 100)
      (earned, max_score, questions, percentage_of_total)

/-- `PreTripScoreSummary.calculate_vehicle_check_score_new` (scoring.py
lines 651-679). An absent section is simply an empty queryset, producing
`earned = 0, max = 0, questions = 0` — the same values as the `except` path. -/
def calculate_vehicle_check_score_new (insp : Inspection) (check_type : VehicleCheckType) :
    ℚ × ℚ × Nat × ℚ :=
  let checks := insp.checks_of check_type
  let questions := checks.length
  let passed := (checks.filter (fun c => c.status == CheckStatus.pass)).length
  let earned := (passed : ℚ) * SCORE_PER_QUESTION
  let max_score := if 0 < questions then (questions : ℚ) * SCORE_PER_QUESTION else 0
  let percentage_of_total :=
    if 0 < TOTAL_PRECHECKLIST_QUESTIONS then
      round2 (earned / (TOTAL_PRECHECKLIST_QUESTIONS : ℚ) * 100)
    else 0
  (earned, max_score, questions, percentage_of_total)

end PreTripScoreSummary

/-! ### Critical failure detection (scoring.py lines 696-726) -/

/-- Replace each underscore by a space (`check_item.replace("_", " ")`). -/
def underscores_to_spaces (s : String) : String :=
  String.mk (s.data.map (fun c => if c = '_' then ' ' else c))

/-- Character-list worker for `py_title`; the boolean records whether the
previous character was alphabetic. -/
def py_title_go : Bool → List Char → List Char
  | _, [] => []
  | prev_alpha, c :: cs =>
      (if prev_alpha then c.toLower else c.toUpper) :: py_title_go c.isAlpha cs

/-- Python `str.title()` on the ASCII identifiers used as check items. -/
def py_title (s : String) : String := String.mk (py_title_go false s.data)

/-- The fixed `critical_items` registry inside `check_critical_failures`
(scoring.py line 715). -/
def critical_items : List String :=
  ["tires", "lights", "brakes", "steering", "seatbelts", "engine_oil", "brake_fluid"]

/-- The failure description appended for a failed critical vehicle check:
`f'Failed Critical Check: {check.check_item.replace("_", " ").title()}'`. -/
def critical_failure_message (check_item : String) : String :=
  "Failed Critical Check: " ++ py_title (underscores_to_spaces check_item)

namespace BrakesSteeringCheck

/-- `BrakesSteeringCheck.has_critical_failure` (vehicle_checks.py lines
272-274): "All brakes and steering items are critical". -/
def has_critical_failure (check : VehicleCheck) : Bool :=
  check.status == CheckStatus.fail

end BrakesSteeringCheck

namespace PreTripScoreSummary

/-- The Health & Fitness block of `check_critical_failures` (scoring.py
lines 700-712): an absent record is skipped silently. -/
def health_critical_failures : Option HealthFitnessCheck → List String
  | Option.some health =>
      (if health.adequate_rest = some false then
         ["Inadequate Rest (less than 8 hours)"] else [])
      ++ (if health.alcohol_test_status = some HealthCheckStatus.fail then
           ["Failed Alcohol/Drug Test"] else [])
      ++ (if health.fit_for_duty = false then
           ["Driver Not Fit for Duty"] else [])
      ++ (if health.no_health_impairment = false then
           ["Health Impairment Present"] else [])
  | Option.none => []

/-- `PreTripScoreSummary.check_critical_failures` (scoring.py lines 696-726).
Health & fitness criticals are scanned first, then the four sections
`exterior_checks`, `engine_fluid_checks`, `interior_cabin_checks`,
`functional_checks` are scanned for failed items of the `critical_items`
registry. The dedicated `brakes_steering_checks` section is not scanned. -/
def check_critical_failures (insp : Inspection) : List String :=
  let failures : List String := []
  let failures := failures ++ health_critical_failures insp.health_fitness
  let failures := failures ++
    ([insp.exterior_checks, insp.engine_fluid_checks,
      insp.interior_cabin_checks, insp.functional_checks].flatMap
      (fun checks =>
        checks.filterMap (fun check =>
          if check.check_item ∈ critical_items ∧ check.status = CheckStatus.fail then
            some (critical_failure_message check.check_item)
          else none)))
  failures

end PreTripScoreSummary

/-! ### Summary records (derived data) -/

/-- One section's block of summary fields (`<section>_score`, `<section>_max`,
`<section>_questions`, `<section>_percentage`, `<section>_risk`). The stored
`percentage` is the section's contribution to the 64-question total, not the
section-local percentage. -/
structure SectionScore where
  score : ℚ
  max : ℚ
  questions : Nat
  percentage : ℚ
  risk : SectionRiskLevel
deriving DecidableEq

/-- The `PreTripScoreSummary` model's computed fields. -/
structure PreTripScoreSummary where
  health_fitness : SectionScore
  documentation : SectionScore
  vehicle_exterior : SectionScore
  engine_fluid : SectionScore
  interior_cabin : SectionScore
  functional : SectionScore
  safety_equipment : SectionScore
  brakes_steering : SectionScore
  total_score : ℚ
  max_possible_score : ℚ
  total_questions : Nat
  score_percentage : ℚ
  score_level : ScoreLevel
  risk_status : RiskStatus
  critical_failures : List String
  has_critical_failures : Bool
  is_cleared_for_travel : Bool
  clearance_notes : String
deriving DecidableEq

/-- The section-local percentage computed inline in `calculate_all_scores`
for each section's risk:
`round((score / max * 100), 2) if max > 0 else 0`. -/
def section_pct (score max_score : ℚ) : ℚ :=
  if 0 < max_score then round2 (score / max_score * 100) else 0

namespace PreTripScoreSummary

/-- `PreTripScoreSummary.calculate_all_scores` (scoring.py lines 739-841). -/
def calculate_all_scores (insp : Inspection) : PreTripScoreSummary :=
  -- Health & Fitness
  let (hf_score, hf_max, hf_questions, hf_percentage) :=
    calculate_health_fitness_score_new insp.health_fitness
  let hf_risk := get_section_risk_level (section_pct hf_score hf_max)
  -- Documentation
  let (doc_score, doc_max, doc_questions, doc_percentage) :=
    calculate_documentation_score_new insp.documentation
  let doc_risk := get_section_risk_level (section_pct doc_score doc_max)
  -- Vehicle checks
  let (ext_score, ext_max, ext_questions, ext_percentage) :=
    calculate_vehicle_check_score_new insp VehicleCheckType.exterior
  let ext_risk := get_section_risk_level (section_pct ext_score ext_max)
  let (eng_score, eng_max, eng_questions, eng_percentage) :=
    calculate_vehicle_check_score_new insp VehicleCheckType.engine
  let eng_risk := get_section_risk_level (section_pct eng_score eng_max)
  let (cab_score, cab_max, cab_questions, cab_percentage) :=
    calculate_vehicle_check_score_new insp VehicleCheckType.interior
  let cab_risk := get_section_risk_level (section_pct cab_score cab_max)
  let (fn_score, fn_max, fn_questions, fn_percentage) :=
    calculate_vehicle_check_score_new insp VehicleCheckType.functional
  let fn_risk := get_section_risk_level (section_pct fn_score fn_max)
  let (saf_score, saf_max, saf_questions, saf_percentage) :=
    calculate_vehicle_check_score_new insp VehicleCheckType.safety
  let saf_risk := get_section_risk_level (section_pct saf_score saf_max)
  -- Brakes and Steering
  let (bs_score, bs_max, bs_questions, bs_percentage) :=
    calculate_vehicle_check_score_new insp VehicleCheckType.brakes_steering
  let bs_risk := get_section_risk_level (section_pct bs_score bs_max)
  -- Totals
  let total_score :=
    hf_score + doc_score + ext_score + eng_score + cab_score + fn_score + saf_score + bs_score
  let max_possible_score :=
    hf_max + doc_max + ext_max + eng_max + cab_max + fn_max + saf_max + bs_max
  let total_questions :=
    hf_questions + doc_questions + ext_questions + eng_questions + cab_questions +
      fn_questions + saf_questions + bs_questions
  -- Percentage and level
  let score_percentage :=
    if 0 < max_possible_score then round2 (total_score / max_possible_score * 100) else 0
  let score_level := determine_score_level score_percentage
  let risk_status := determine_risk_status score_percentage
  -- Critical failures
  let critical_failures := check_critical_failures insp
  let has_critical_failures := decide (0 < critical_failures.length)
  -- Travel clearance
  let is_cleared_for_travel := !has_critical_failures && decide ((60 : ℚ) ≤ score_percentage)
  -- Clearance notes (numeric formatting of the percentage is abstracted)
  let clearance_notes :=
    if has_critical_failures then
      "Travel not cleared due to critical failures: " ++
        String.intercalate ", " critical_failures
    else if score_percentage < 60 then
      "Travel not cleared due to low overall score (" ++ toString score_percentage ++ "%)"
    else
      "All checks passed. Vehicle and driver cleared for travel."
  { health_fitness := ⟨hf_score, hf_max, hf_questions, hf_percentage, hf_risk⟩
    documentation := ⟨doc_score, doc_max, doc_questions, doc_percentage, doc_risk⟩
    vehicle_exterior := ⟨ext_score, ext_max, ext_questions, ext_percentage, ext_risk⟩
    engine_fluid := ⟨eng_score, eng_max, eng_questions, eng_percentage, eng_risk⟩
    interior_cabin := ⟨cab_score, cab_max, cab_questions, cab_percentage, cab_risk⟩
    functional := ⟨fn_score, fn_max, fn_questions, fn_percentage, fn_risk⟩
    safety_equipment := ⟨saf_score, saf_max, saf_questions, saf_percentage, saf_risk⟩
    brakes_steering := ⟨bs_score, bs_max, bs_questions, bs_percentage, bs_risk⟩
    total_score := total_score
    max_possible_score := max_possible_score
    total_questions := total_questions
    score_percentage := score_percentage
    score_level := score_level
    risk_status := risk_status
    critical_failures := critical_failures
    has_critical_failures := has_critical_failures
    is_cleared_for_travel := is_cleared_for_travel
    clearance_notes := clearance_notes }

end PreTripScoreSummary

/-- The `PostChecklistScoreSummary` model's computed fields. -/
structure PostChecklistScoreSummary where
  trip_behavior : SectionScore
  driving_behavior : SectionScore
  post_trip_report : SectionScore
  total_score : ℚ
  max_possible_score : ℚ
  total_questions : Nat
  score_percentage : ℚ
deriving DecidableEq

namespace PostChecklistScoreSummary

/-- `PostChecklistScoreSummary.calculate_trip_behavior_score` (scoring.py
lines 1142-1153): compliant = 1 point, violation = 0 points. -/
def calculate_trip_behavior_score (insp : Inspection) : ℚ :=
  ((insp.trip_behaviors.foldl
      (fun total behavior =>
        if behavior.status = BehaviorStatus.compliant then total + 1 else total)
      0 : Nat) : ℚ)

/-- `PostChecklistScoreSummary.calculate_driving_behavior_score` (scoring.py
lines 1155-1166): a truthy status = 1 point. -/
def calculate_driving_behavior_score (insp : Inspection) : ℚ :=
  ((insp.driving_behaviors.foldl
      (fun total behavior => if behavior.status then total + 1 else total)
      0 : Nat) : ℚ)

/-- `PostChecklistScoreSummary.calculate_post_trip_report_score` (scoring.py
lines 1168-1196). The `none` branch is the `except` path for a missing
post-trip report. -/
def calculate_post_trip_report_score (insp : Inspection) : ℚ :=
  match insp.post_trip with
  | Option.none => 0
  | Option.some post_trip =>
      let total : Nat := 0
      let total := if post_trip.vehicle_fault_submitted = false then total + 1 else total
      let total := if post_trip.final_inspection_signed then total + 1 else total
      let total := if post_trip.compliance_with_policy then total + 1 else total
      let total := if post_trip.attitude_cooperation then total + 1 else total
      let total := if post_trip.incidents_recorded = false then total + 1 else total
      (total : ℚ)

/-- `PostChecklistScoreSummary.calculate_all_scores` (scoring.py lines
1198-1239). Each section's risk is classified on the unrounded percentage,
the stored percentage is rounded to two decimals. -/
def calculate_all_scores (insp : Inspection) : PostChecklistScoreSummary :=
  -- Trip Behavior
  let trip_behavior_score := calculate_trip_behavior_score insp
  let trip_behavior_max : ℚ := 12
  let trip_behavior_questions := 12
  let trip_pct := trip_behavior_score / trip_behavior_max * 100
  let trip_behavior_percentage := if 0 < trip_behavior_max then round2 trip_pct else 0
  let trip_behavior_risk :=
    if 0 < trip_behavior_max then get_section_risk_level trip_pct
    else SectionRiskLevel.high_risk
  -- Driving Behavior
  let driving_behavior_score := calculate_driving_behavior_score insp
  let driving_behavior_max : ℚ := 11
  let driving_behavior_questions := 11
  let driving_pct := driving_behavior_score / driving_behavior_max * 100
  let driving_behavior_percentage := if 0 < driving_behavior_max then round2 driving_pct else 0
  let driving_behavior_risk :=
    if 0 < driving_behavior_max then get_section_risk_level driving_pct
    else SectionRiskLevel.high_risk
  -- Post-Trip Report
  let post_trip_report_score := calculate_post_trip_report_score insp
  let post_trip_report_max : ℚ := 5
  let post_trip_report_questions := 5
  let report_pct := post_trip_report_score / post_trip_report_max * 100
  let post_trip_report_percentage := if 0 < post_trip_report_max then round2 report_pct else 0
  let post_trip_report_risk :=
    if 0 < post_trip_report_max then get_section_risk_level report_pct
    else SectionRiskLevel.high_risk
  -- Overall totals
  let total_score := trip_behavior_score + driving_behavior_score + post_trip_report_score
  let max_possible_score : ℚ := 28
  let total_questions := 28
  let score_percentage :=
    if 0 < max_possible_score then round2 (total_score / max_possible_score * 100) else 0
  { trip_behavior :=
      ⟨trip_behavior_score, trip_behavior_max, trip_behavior_questions,
        trip_behavior_percentage, trip_behavior_risk⟩
    driving_behavior :=
      ⟨driving_behavior_score, driving_behavior_max, driving_behavior_questions,
        driving_behavior_percentage, driving_behavior_risk⟩
    post_trip_report :=
      ⟨post_trip_report_score, post_trip_report_max, post_trip_report_questions,
        post_trip_report_percentage, post_trip_report_risk⟩
    total_score := total_score
    max_possible_score := max_possible_score
    total_questions := total_questions
    score_percentage := score_percentage }

end PostChecklistScoreSummary

/-- The `FinalScoreSummary` model's computed fields. -/
structure FinalScoreSummary where
  pre_checklist_score : ℚ
  pre_checklist_max : ℚ
  pre_checklist_percentage : ℚ
  pre_checklist_weighted : ℚ
  post_checklist_score : ℚ
  post_checklist_max : ℚ
  post_checklist_percentage : ℚ
  post_checklist_weighted : ℚ
  final_percentage : ℚ
  final_risk_level : FinalRiskLevel
  final_status : FinalStatus
  final_comment : String
deriving DecidableEq

namespace FinalScoreSummary

/-- `FinalScoreSummary.generate_final_comment` (scoring.py lines 1432-1466),
as a function of the four fields it reads. -/
def generate_final_comment (pre_pct post_pct final_pct : ℚ) (status : FinalStatus) : String :=
  let pre_comment :=
    if 85 ≤ pre_pct then "Pre-trip inspection: Excellent compliance."
    else if 70 ≤ pre_pct then "Pre-trip inspection: Acceptable with minor issues."
    else "Pre-trip inspection: Significant deficiencies identified."
  let post_comment :=
    if 85 ≤ post_pct then "Post-trip performance: Outstanding conduct and reporting."
    else if 70 ≤ post_pct then "Post-trip performance: Satisfactory with room for improvement."
    else "Post-trip performance: Major concerns regarding conduct or reporting."
  let final_comment :=
    if 85 ≤ final_pct then
      "Overall Assessment: " ++ get_final_status_display status ++
        " - Driver demonstrated excellent performance."
    else if 70 ≤ final_pct then
      "Overall Assessment: " ++ get_final_status_display status ++
        " - Driver meets minimum requirements."
    else if 50 ≤ final_pct then
      "Overall Assessment: " ++ get_final_status_display status ++
        " - Driver requires additional training or supervision."
    else
      "Overall Assessment: " ++ get_final_status_display status ++
        " - Driver does not meet safety standards. Immediate action required."
  String.intercalate " " [pre_comment, post_comment, final_comment]

/-- `FinalScoreSummary.calculate_final_score` (scoring.py lines 1379-1430).
The `none` branches are the `except` paths taken when the pre-trip or
post-checklist summary is absent at combination time. -/
def calculate_final_score (pre_trip_score : Option PreTripScoreSummary)
    (post_checklist_score : Option PostChecklistScoreSummary) : FinalScoreSummary :=
  -- Get pre-checklist score
  let (pre_score_total, pre_max, pre_percentage, pre_weighted) :=
    match pre_trip_score with
    | Option.some pre_score =>
        (pre_score.total_score, pre_score.max_possible_score, pre_score.score_percentage,
          round2 (pre_score.score_percentage / 100 * 50))
    | Option.none => ((0 : ℚ), (64 : ℚ), (0 : ℚ), (0 : ℚ))
  -- Get post-checklist score
  let (post_score_total, post_max, post_percentage, post_weighted) :=
    match post_checklist_score with
    | Option.some post_score =>
        (post_score.total_score, post_score.max_possible_score, post_score.score_percentage,
          round2 (post_score.score_percentage / 100 * 50))
    | Option.none => ((0 : ℚ), (28 : ℚ), (0 : ℚ), (0 : ℚ))
  -- Calculate final percentage
  let final_percentage := pre_weighted + post_weighted
  -- Determine final risk level
  let final_risk_level := get_final_risk_level final_percentage
  -- Determine final status
  let final_status :=
    if 70 ≤ final_percentage then FinalStatus.passed
    else if 50 ≤ final_percentage then FinalStatus.needs_review
    else FinalStatus.failed
  let final_comment :=
    generate_final_comment pre_percentage post_percentage final_percentage final_status
  { pre_checklist_score := pre_score_total
    pre_checklist_max := pre_max
    pre_checklist_percentage := pre_percentage
    pre_checklist_weighted := pre_weighted
    post_checklist_score := post_score_total
    post_checklist_max := post_max
    post_checklist_percentage := post_percentage
    post_checklist_weighted := post_weighted
    final_percentage := final_percentage
    final_risk_level := final_risk_level
    final_status := final_status
    final_comment := final_comment }

end FinalScoreSummary

/-! ### Concrete fixtures used by witnesses and counterexamples -/

/-- A health & fitness record with every check in the favourable direction. -/
def example_full_health : HealthFitnessCheck :=
  { adequate_rest := some true
    alcohol_test_status := some HealthCheckStatus.pass
    temperature_check_status := some HealthCheckStatus.pass
    fit_for_duty := true
    medication_status := false
    no_health_impairment := true
    fatigue_checklist_completed := true }

/-- Like `example_full_health` but with `adequate_rest` unanswered (`None`). -/
def example_rest_unanswered : HealthFitnessCheck :=
  { adequate_rest := none
    alcohol_test_status := some HealthCheckStatus.pass
    temperature_check_status := some HealthCheckStatus.pass
    fit_for_duty := true
    medication_status := false
    no_health_impairment := true
    fatigue_checklist_completed := true }

/-- A documentation record with every check in the favourable direction. -/
def example_full_documentation : DocumentationCompliance :=
  { certificate_of_fitness_valid := YesNoChoice.yes
    certificate_of_fitness := DocumentStatus.valid
    safety_briefing_provided := YesNoChoice.yes
    rtsa_clearance := YesNoChoice.yes
    time_briefing_conducted := some 480
    emergency_contact_employer := "Fleet Desk 0977"
    emergency_contact_government := "RTSA 0955"
    road_tax_valid := true
    insurance_valid := true
    trip_authorization_signed := true
    logbook_present := true
    driver_handbook_present := true
    permits_valid := true
    ppe_available := true
    route_familiarity := true
    emergency_procedures_known := true
    gps_activated := true }

/-- An inspection with no related record at all. -/
def example_empty_inspection : Inspection :=
  { health_fitness := none
    documentation := none
    exterior_checks := []
    engine_fluid_checks := []
    interior_cabin_checks := []
    functional_checks := []
    safety_equipment_checks := []
    brakes_steering_checks := []
    trip_behaviors := []
    driving_behaviors := []
    post_trip := none }

/-- An inspection scoring exactly 60.00% with no critical failure:
health 7/7, documentation 16/16, exterior 1/17 (the 16 failed mirror checks
are not critical items). Total 24/40 = 60%. -/
def example_sixty_inspection : Inspection :=
  { example_empty_inspection with
    health_fitness := some example_full_health
    documentation := some example_full_documentation
    exterior_checks :=
      ⟨"mirrors", CheckStatus.pass⟩ ::
        List.replicate 16 ⟨"mirrors", CheckStatus.fail⟩ }

/-- An otherwise perfect inspection whose only failure is one failed check in
the dedicated Brakes & Steering section: health 7/7, documentation 16/16,
brakes & steering 0/1. Total 23/24 = 95.83%. -/
def example_brakes_fail_inspection : Inspection :=
  { example_empty_inspection with
    health_fitness := some example_full_health
    documentation := some example_full_documentation
    brakes_steering_checks := [⟨"brakes_condition", CheckStatus.fail⟩] }

/-- Two in-window inspections (3 and 6 violation points) and one outside the
30-day window (20 points), seen from day 100. -/
def example_driver_history : List RiskScoreSummary.InspectionRecord :=
  [ { inspection_date := 95
      trip_behaviors := [⟨"max_speed_open_road", BehaviorStatus.violation, 3⟩] }
  , { inspection_date := 80
      trip_behaviors :=
        [ ⟨"max_speed_open_road", BehaviorStatus.violation, 3⟩
        , ⟨"scheduled_breaks", BehaviorStatus.violation, 3⟩ ] }
  , { inspection_date := 60
      trip_behaviors := [⟨"incidents", BehaviorStatus.violation, 15⟩,
        ⟨"max_speed_open_road", BehaviorStatus.violation, 5⟩] } ]

/-- A zeroed section block, for fixture summaries. -/
def zero_section : SectionScore :=
  { score := 0, max := 0, questions := 0, percentage := 0
    risk := SectionRiskLevel.high_risk }

/-- A fixture pre-trip summary whose overall percentage is 80%. -/
def example_pre_summary_80 : PreTripScoreSummary :=
  { health_fitness := zero_section
    documentation := zero_section
    vehicle_exterior := zero_section
    engine_fluid := zero_section
    interior_cabin := zero_section
    functional := zero_section
    safety_equipment := zero_section
    brakes_steering := zero_section
    total_score := 256/5
    max_possible_score := 64
    total_questions := 64
    score_percentage := 80
    score_level := ScoreLevel.good
    risk_status := RiskStatus.low_risk
    critical_failures := []
    has_critical_failures := false
    is_cleared_for_travel := true
    clearance_notes := "All checks passed. Vehicle and driver cleared for travel." }

/-- A fixture post-checklist summary whose overall percentage is 60%. -/
def example_post_summary_60 : PostChecklistScoreSummary :=
  { trip_behavior := zero_section
    driving_behavior := zero_section
    post_trip_report := zero_section
    total_score := 84/5
    max_possible_score := 28
    total_questions := 28
    score_percentage := 60 }

/-- The inspection whose health record failed the rest check. -/
def example_rest_failed_inspection : Inspection :=
  { example_empty_inspection with
    health_fitness := some { example_full_health with adequate_rest := some false } }

/-- The inspection whose health record left the rest check unanswered. -/
def example_rest_unanswered_inspection : Inspection :=
  { example_empty_inspection with
    health_fitness := some example_rest_unanswered }

/-! ### Basic lemmas about rounding -/

/-- `round` is monotone on `ℚ` (via `round_eq` and floor monotonicity). -/
theorem round_mono_rat {x y : ℚ} (h : x ≤ y) : round x ≤ round y := by
  rw [round_eq, round_eq]
  exact Int.floor_le_floor (by linarith)

theorem round2_nonneg {q : ℚ} (h : 0 ≤ q) : 0 ≤ round2 q := by
  unfold round2
  have h1 : (0 : ℤ) ≤ round (q * 100) := by
    have h2 := round_mono_rat (show (0 : ℚ) ≤ q * 100 by linarith)
    simpa using h2
  have h3 : (0 : ℚ) ≤ ((round (q * 100) : ℤ) : ℚ) := by exact_mod_cast h1
  linarith

theorem round2_le_intCast {q : ℚ} {n : ℤ} (h : q ≤ (n : ℚ)) : round2 q ≤ (n : ℚ) := by
  unfold round2
  have h2 : q * 100 ≤ ((n * 100 : ℤ) : ℚ) := by push_cast; linarith
  have h3 : round (q * 100) ≤ n * 100 := by
    have h4 := round_mono_rat h2
    rwa [round_intCast] at h4
  rw [div_le_iff₀ (by norm_num : (0 : ℚ) < 100)]
  calc ((round (q * 100) : ℤ) : ℚ) ≤ ((n * 100 : ℤ) : ℚ) := by exact_mod_cast h3
    _ = (n : ℚ) * 100 := by push_cast; ring

/-! ### Claim C4: the four-tier risk classifier -/

/-- Claim C4: for every percentage `p`, each of the three four-tier
classifiers — `get_section_risk_level` (per-section risk),
`PreTripScoreSummary.determine_risk_status` (overall pre-trip risk) and
`get_final_risk_level` (final risk) — returns NO_RISK iff `p ≥ 100`,
VERY_LOW_RISK iff `85 ≤ p < 100`, LOW_RISK iff `70 ≤ p < 85` and HIGH_RISK
iff `p < 70`: every boundary is inclusive on the lower bound of its tier. -/
theorem risk_classifier_four_tiers (p : ℚ) :
    (get_section_risk_level p = SectionRiskLevel.no_risk ↔ 100 ≤ p)
    ∧ (get_section_risk_level p = SectionRiskLevel.very_low_risk ↔ 85 ≤ p ∧ p < 100)
    ∧ (get_section_risk_level p = SectionRiskLevel.low_risk ↔ 70 ≤ p ∧ p < 85)
    ∧ (get_section_risk_level p = SectionRiskLevel.high_risk ↔ p < 70)
    ∧ (PreTripScoreSummary.determine_risk_status p = RiskStatus.no_risk ↔ 100 ≤ p)
    ∧ (PreTripScoreSummary.determine_risk_status p = RiskStatus.very_low_risk ↔
        85 ≤ p ∧ p < 100)
    ∧ (PreTripScoreSummary.determine_risk_status p = RiskStatus.low_risk ↔ 70 ≤ p ∧ p < 85)
    ∧ (PreTripScoreSummary.determine_risk_status p = RiskStatus.high_risk ↔ p < 70)
    ∧ (get_final_risk_level p = FinalRiskLevel.no_risk ↔ 100 ≤ p)
    ∧ (get_final_risk_level p = FinalRiskLevel.very_low_risk ↔ 85 ≤ p ∧ p < 100)
    ∧ (get_final_risk_level p = FinalRiskLevel.low_risk ↔ 70 ≤ p ∧ p < 85)
    ∧ (get_final_risk_level p = FinalRiskLevel.high_risk ↔ p < 70) := by
  unfold get_section_risk_level PreTripScoreSummary.determine_risk_status get_final_risk_level
  split_ifs with h1 h2 h3
  all_goals try rw [not_le] at h1
  all_goals try rw [not_le] at h2
  all_goals try rw [not_le] at h3
  all_goals
    refine ⟨?_, ?_, ?_, ?_, ?_, ?_, ?_, ?_, ?_, ?_, ?_, ?_⟩ <;>
    constructor <;>
    intro h <;>
    first
      | rfl
      | linarith
      | (constructor <;> linarith)
      | (exfalso; linarith)
      | (exfalso; rcases h with ⟨ha, hb⟩; linarith)
      | (simp at h)

/-! ### Claim C5: the 30-day rolling tracker -/

/-- Accumulating a list's violation points into a running total. -/
theorem foldl_points_eq_sum (l : List TripBehavior) (init : Nat) :
    l.foldl (fun t behavior => t + behavior.violation_points) init
      = init + (l.map (fun behavior => behavior.violation_points)).sum := by
  induction l generalizing init with
  | nil => simp
  | cons b bs ih => simp [ih, Nat.add_assoc]

/-- Accumulating the per-inspection totals into a running total. -/
theorem foldl_inspections_eq_sum (l : List RiskScoreSummary.InspectionRecord) (init : Nat) :
    l.foldl
        (fun total inspection =>
          inspection.trip_behaviors.foldl
            (fun t behavior => t + behavior.violation_points) total)
        init
      = init +
        (l.map (fun inspection =>
          (inspection.trip_behaviors.map (fun behavior => behavior.violation_points)).sum)).sum := by
  induction l generalizing init with
  | nil => simp
  | cons i is ih =>
      simp only [List.foldl_cons, List.map_cons, List.sum_cons]
      rw [foldl_points_eq_sum, ih]
      omega

/-- Claim C5: `calculate_30_day_points` equals the sum of `violation_points`
over every trip-behavior row of the driver's inspections dated within the
trailing 30 days; ​the three-tier classifier maps `0-3 ↦ LOW`, `4-9 ↦ MEDIUM`,
`≥10 ↦ HIGH`; and two in-window inspections contributing 3 and 6 points give
a total of 9, classified MEDIUM. -/
theorem rolling_thirty_day_tracker
    (driver_inspections : List RiskScoreSummary.InspectionRecord) (now : Int) :
    (RiskScoreSummary.calculate_30_day_points driver_inspections now
      = ((driver_inspections.filter (fun i => now - 30 ≤ i.inspection_date)).map
          (fun i => (i.trip_behaviors.map (fun b => b.violation_points)).sum)).sum)
    ∧ (∀ points : Nat,
        (RiskScoreSummary.determine_risk_level points = RiskLevel.low ↔ points ≤ 3)
        ∧ (RiskScoreSummary.determine_risk_level points = RiskLevel.medium ↔
            4 ≤ points ∧ points ≤ 9)
        ∧ (RiskScoreSummary.determine_risk_level points = RiskLevel.high ↔ 10 ≤ points))
    ∧ RiskScoreSummary.calculate_30_day_points example_driver_history 100 = 9
    ∧ RiskScoreSummary.determine_risk_level 9 = RiskLevel.medium := by
  refine ⟨?_, ?_, ?_, ?_⟩
  · unfold RiskScoreSummary.calculate_30_day_points
    simp [foldl_inspections_eq_sum]
  · intro points
    unfold RiskScoreSummary.determine_risk_level
    split_ifs with h1 h2 <;>
      refine ⟨?_, ?_, ?_⟩ <;> constructor <;> intro h <;>
      first
        | rfl
        | omega
        | (constructor <;> omega)
        | (exfalso; omega)
        | (simp at h)
  · decide
  · decide

/-! ### Evaluation and bound lemmas for `round2` and the counters -/

/-- `round q = n` once `q` is within a half of `n`. -/
theorem round_rat_eq_int {q : ℚ} {n : ℤ} (h1 : (n : ℚ) ≤ q + 1/2) (h2 : q + 1/2 < (n : ℚ) + 1) :
    round q = n := by
  rw [round_eq]
  refine Int.floor_eq_iff.mpr ⟨h1, ?_⟩
  exact_mod_cast h2

/-- Evaluate `round2 q` to `n / 100` from two rational bounds. -/
theorem round2_eq_div100 {q : ℚ} {n : ℤ} (h1 : (n : ℚ) ≤ q * 100 + 1/2)
    (h2 : q * 100 + 1/2 < (n : ℚ) + 1) : round2 q = (n : ℚ) / 100 := by
  unfold round2
  rw [round_rat_eq_int h1 h2]

@[simp]
theorem round2_zero : round2 0 = 0 := by
  unfold round2
  rw [show (0 : ℚ) * 100 = 0 by ring, round_zero]
  norm_num

/-- The health & fitness counters never award more points than questions. -/
theorem hf_counts_passed_le_questions (h : HealthFitnessCheck) :
    (HealthFitnessCheck.score_new_counts h).2 ≤ (HealthFitnessCheck.score_new_counts h).1 := by
  obtain ⟨r, a, t, f, m, n, fc⟩ := h
  rcases r with _ | (_ | _) <;> rcases a with _ | (_ | _) <;> rcases t with _ | (_ | _) <;>
    rcases f with _ | _ <;> rcases m with _ | _ <;> rcases n with _ | _ <;>
    rcases fc with _ | _ <;> decide

/-! ### Claim C1: the travel-clearance rule -/

/-- Claim C1: in every computed pre-trip summary,
`is_cleared_for_travel = (not has_critical_failures) and (score_percentage ≥ 60)`;
hence any critical failure forces `false` regardless of the percentage, a
percentage of exactly 59.99 with no critical failure gives `false`, and 60
or more with no critical failure gives `true`. -/
theorem pretrip_travel_clearance (insp : Inspection) (s : PreTripScoreSummary)
    (hs : s = PreTripScoreSummary.calculate_all_scores insp) :
    (s.is_cleared_for_travel
        = (!s.has_critical_failures && decide ((60 : ℚ) ≤ s.score_percentage)))
    ∧ (s.has_critical_failures = true → s.is_cleared_for_travel = false)
    ∧ (s.has_critical_failures = false → s.score_percentage = 5999 / 100 →
        s.is_cleared_for_travel = false)
    ∧ (s.has_critical_failures = false → (60 : ℚ) ≤ s.score_percentage →
        s.is_cleared_for_travel = true) := by
  subst hs
  have h1 : (PreTripScoreSummary.calculate_all_scores insp).is_cleared_for_travel
      = (!(PreTripScoreSummary.calculate_all_scores insp).has_critical_failures &&
          decide ((60 : ℚ) ≤ (PreTripScoreSummary.calculate_all_scores insp).score_percentage)) :=
    rfl
  refine ⟨h1, ?_, ?_, ?_⟩
  · intro hc
    rw [h1, hc]
    simp
  · intro hc hp
    rw [h1, hc, hp]
    simp
    norm_num
  · intro hc hp
    rw [h1, hc]
    simpa using hp

/-- Witness for C1: a concrete inspection scoring exactly 60.00% with no
critical failure is cleared for travel. -/
theorem pretrip_travel_clearance_witness :
    (PreTripScoreSummary.calculate_all_scores example_sixty_inspection).has_critical_failures
        = false
    ∧ (PreTripScoreSummary.calculate_all_scores example_sixty_inspection).score_percentage = 60
    ∧ (PreTripScoreSummary.calculate_all_scores example_sixty_inspection).is_cleared_for_travel
        = true := by
  have hcrit :
      (PreTripScoreSummary.calculate_all_scores example_sixty_inspection).has_critical_failures
        = false := by decide
  have hpct :
      (PreTripScoreSummary.calculate_all_scores example_sixty_inspection).score_percentage
        = 60 := by
    simp only [PreTripScoreSummary.calculate_all_scores,
      PreTripScoreSummary.calculate_health_fitness_score_new,
      HealthFitnessCheck.score_new_counts,
      PreTripScoreSummary.calculate_documentation_score_new,
      PreTripScoreSummary.calculate_vehicle_check_score_new,
      Inspection.checks_of, example_sixty_inspection, example_empty_inspection,
      example_full_health, example_full_documentation,
      DocumentationCompliance.score_new_answers, SCORE_PER_QUESTION,
      TOTAL_PRECHECKLIST_QUESTIONS]
    simp
    norm_num
    rw [@round2_eq_div100 _ 6000 (by norm_num) (by norm_num)]
    norm_num
  refine ⟨hcrit, hpct, ?_⟩
  exact (pretrip_travel_clearance example_sixty_inspection
    (PreTripScoreSummary.calculate_all_scores example_sixty_inspection) rfl).2.2.2 hcrit
    (by rw [hpct])

/-! ### Claim C2: a failed Brakes & Steering check and the detector -/

/-- Claim C2 (code bug): `BrakesSteeringCheck.has_critical_failure` declares
every failed Brakes & Steering item critical, yet `check_critical_failures`
never scans `brakes_steering_checks`: on an otherwise perfect inspection
whose only failure is a failed `brakes_condition` check, the detector
returns no failure at all, the summary reports no critical failures, scores
95.83%, and clears the vehicle for travel. -/
theorem brakes_steering_failure_not_detected :
    BrakesSteeringCheck.has_critical_failure ⟨"brakes_condition", CheckStatus.fail⟩ = true
    ∧ example_brakes_fail_inspection.brakes_steering_checks
        = [⟨"brakes_condition", CheckStatus.fail⟩]
    ∧ PreTripScoreSummary.check_critical_failures example_brakes_fail_inspection = []
    ∧ (PreTripScoreSummary.calculate_all_scores
          example_brakes_fail_inspection).has_critical_failures = false
    ∧ (PreTripScoreSummary.calculate_all_scores
          example_brakes_fail_inspection).score_percentage = 9583 / 100
    ∧ (PreTripScoreSummary.calculate_all_scores
          example_brakes_fail_inspection).is_cleared_for_travel = true := by
  have hpct :
      (PreTripScoreSummary.calculate_all_scores
          example_brakes_fail_inspection).score_percentage = 9583 / 100 := by
    simp only [PreTripScoreSummary.calculate_all_scores,
      PreTripScoreSummary.calculate_health_fitness_score_new,
      HealthFitnessCheck.score_new_counts,
      PreTripScoreSummary.calculate_documentation_score_new,
      PreTripScoreSummary.calculate_vehicle_check_score_new,
      Inspection.checks_of, example_brakes_fail_inspection, example_empty_inspection,
      example_full_health, example_full_documentation,
      DocumentationCompliance.score_new_answers, SCORE_PER_QUESTION,
      TOTAL_PRECHECKLIST_QUESTIONS]
    simp
    norm_num
    rw [@round2_eq_div100 _ 9583 (by norm_num) (by norm_num)]
    norm_num
  have hclear :
      (PreTripScoreSummary.calculate_all_scores
          example_brakes_fail_inspection).is_cleared_for_travel
        = (!(PreTripScoreSummary.calculate_all_scores
              example_brakes_fail_inspection).has_critical_failures &&
            decide ((60 : ℚ) ≤ (PreTripScoreSummary.calculate_all_scores
              example_brakes_fail_inspection).score_percentage)) := rfl
  refine ⟨by decide, by decide, by decide, by decide, hpct, ?_⟩
  rw [hclear, hpct, show (PreTripScoreSummary.calculate_all_scores
      example_brakes_fail_inspection).has_critical_failures = false by decide]
  simp
  norm_num

/-! ### Claim C3: the final combiner -/

/-- Claim C3: for summaries whose percentages lie in [0, 100], the final
combiner weights each side by `round(pct/100*50, 2)`, sums the two weighted
halves into `final_percentage` (which stays in [0, 100]) and assigns
PASSED iff `final ≥ 70`, NEEDS_REVIEW iff `50 ≤ final < 70`, FAILED iff
`final < 50`. -/
theorem final_combiner_weighting_and_status
    (sp : PreTripScoreSummary) (ps : PostChecklistScoreSummary)
    (hpre0 : 0 ≤ sp.score_percentage) (hpre1 : sp.score_percentage ≤ 100)
    (hpost0 : 0 ≤ ps.score_percentage) (hpost1 : ps.score_percentage ≤ 100) :
    (FinalScoreSummary.calculate_final_score (some sp) (some ps)).pre_checklist_weighted
        = round2 (sp.score_percentage / 100 * 50)
    ∧ (FinalScoreSummary.calculate_final_score (some sp) (some ps)).post_checklist_weighted
        = round2 (ps.score_percentage / 100 * 50)
    ∧ (FinalScoreSummary.calculate_final_score (some sp) (some ps)).final_percentage
        = (FinalScoreSummary.calculate_final_score (some sp) (some ps)).pre_checklist_weighted
          + (FinalScoreSummary.calculate_final_score (some sp) (some ps)).post_checklist_weighted
    ∧ 0 ≤ (FinalScoreSummary.calculate_final_score (some sp) (some ps)).final_percentage
    ∧ (FinalScoreSummary.calculate_final_score (some sp) (some ps)).final_percentage ≤ 100
    ∧ ((FinalScoreSummary.calculate_final_score (some sp) (some ps)).final_status
          = FinalStatus.passed
        ↔ 70 ≤ (FinalScoreSummary.calculate_final_score (some sp) (some ps)).final_percentage)
    ∧ ((FinalScoreSummary.calculate_final_score (some sp) (some ps)).final_status
          = FinalStatus.needs_review
        ↔ 50 ≤ (FinalScoreSummary.calculate_final_score (some sp) (some ps)).final_percentage
          ∧ (FinalScoreSummary.calculate_final_score (some sp) (some ps)).final_percentage < 70)
    ∧ ((FinalScoreSummary.calculate_final_score (some sp) (some ps)).final_status
          = FinalStatus.failed
        ↔ (FinalScoreSummary.calculate_final_score (some sp) (some ps)).final_percentage < 50)
    := by
  have hw1 : (FinalScoreSummary.calculate_final_score (some sp) (some ps)).pre_checklist_weighted
      = round2 (sp.score_percentage / 100 * 50) := rfl
  have hw2 : (FinalScoreSummary.calculate_final_score (some sp) (some ps)).post_checklist_weighted
      = round2 (ps.score_percentage / 100 * 50) := rfl
  have hf : (FinalScoreSummary.calculate_final_score (some sp) (some ps)).final_percentage
      = round2 (sp.score_percentage / 100 * 50) + round2 (ps.score_percentage / 100 * 50) := rfl
  have hb1 : 0 ≤ round2 (sp.score_percentage / 100 * 50) :=
    round2_nonneg (by positivity)
  have hb2 : 0 ≤ round2 (ps.score_percentage / 100 * 50) :=
    round2_nonneg (by positivity)
  have hb3 : round2 (sp.score_percentage / 100 * 50) ≤ ((50 : ℤ) : ℚ) :=
    round2_le_intCast (by push_cast; linarith)
  have hb4 : round2 (ps.score_percentage / 100 * 50) ≤ ((50 : ℤ) : ℚ) :=
    round2_le_intCast (by push_cast; linarith)
  have hst : (FinalScoreSummary.calculate_final_score (some sp) (some ps)).final_status
      = (if 70 ≤ (FinalScoreSummary.calculate_final_score (some sp) (some ps)).final_percentage
          then FinalStatus.passed
          else if 50 ≤ (FinalScoreSummary.calculate_final_score
              (some sp) (some ps)).final_percentage
          then FinalStatus.needs_review
          else FinalStatus.failed) := rfl
  push_cast at hb3 hb4
  refine ⟨hw1, hw2, by rw [hf, hw1, hw2], by rw [hf]; linarith, by rw [hf]; linarith,
    ?_, ?_, ?_⟩ <;>
    rw [hst] <;>
    split_ifs with u1 u2 <;>
    constructor <;> intro hx <;>
    first
      | rfl
      | linarith
      | (constructor <;> linarith)
      | (exfalso; linarith)
      | (exfalso; rcases hx with ⟨hxa, hxb⟩; linarith)
      | (simp at hx)

/-- Witness for C3: pre 80% and post 60% combine to exactly 70, status
PASSED and final risk LOW_RISK. -/
theorem final_combiner_weighting_and_status_witness :
    (FinalScoreSummary.calculate_final_score
        (some example_pre_summary_80) (some example_post_summary_60)).final_percentage = 70
    ∧ (FinalScoreSummary.calculate_final_score
        (some example_pre_summary_80) (some example_post_summary_60)).final_status
        = FinalStatus.passed
    ∧ (FinalScoreSummary.calculate_final_score
        (some example_pre_summary_80) (some example_post_summary_60)).final_risk_level
        = FinalRiskLevel.low_risk := by
  have hf : (FinalScoreSummary.calculate_final_score
      (some example_pre_summary_80) (some example_post_summary_60)).final_percentage
      = round2 (example_pre_summary_80.score_percentage / 100 * 50)
        + round2 (example_post_summary_60.score_percentage / 100 * 50) := rfl
  have hf70 : (FinalScoreSummary.calculate_final_score
      (some example_pre_summary_80) (some example_post_summary_60)).final_percentage = 70 := by
    rw [hf]
    norm_num [example_pre_summary_80, example_post_summary_60]
    rw [@round2_eq_div100 _ 4000 (by norm_num) (by norm_num),
      @round2_eq_div100 _ 3000 (by norm_num) (by norm_num)]
    norm_num
  have hstatus := (final_combiner_weighting_and_status example_pre_summary_80
    example_post_summary_60 (by norm_num [example_pre_summary_80])
    (by norm_num [example_pre_summary_80]) (by norm_num [example_post_summary_60])
    (by norm_num [example_post_summary_60])).2.2.2.2.2.1
  have hrisk : (FinalScoreSummary.calculate_final_score
      (some example_pre_summary_80) (some example_post_summary_60)).final_risk_level
      = get_final_risk_level ((FinalScoreSummary.calculate_final_score
          (some example_pre_summary_80) (some example_post_summary_60)).final_percentage) := rfl
  refine ⟨hf70, hstatus.mpr (by rw [hf70]), ?_⟩
  rw [hrisk, hf70]
  unfold get_final_risk_level
  norm_num

/-! ### Claim C6: missing-section defaults of the scorers -/

/-- Counterexample to C6 as stated: an inspection with no Brakes & Steering
answers gets `earned = 0` but `max = 0`, not the section's nominal full
count of 9. -/
theorem missing_brakes_steering_max_is_zero :
    PreTripScoreSummary.calculate_vehicle_check_score_new example_empty_inspection
        VehicleCheckType.brakes_steering = (0, 0, 0, 0)
    ∧ (PreTripScoreSummary.calculate_vehicle_check_score_new example_empty_inspection
        VehicleCheckType.brakes_steering).2.1 ≠ 9 := by
  have h : PreTripScoreSummary.calculate_vehicle_check_score_new example_empty_inspection
      VehicleCheckType.brakes_steering = (0, 0, 0, 0) := by
    simp only [PreTripScoreSummary.calculate_vehicle_check_score_new, Inspection.checks_of,
      example_empty_inspection, SCORE_PER_QUESTION, TOTAL_PRECHECKLIST_QUESTIONS]
    norm_num
  refine ⟨h, ?_⟩
  rw [h]
  norm_num

/-- Claim C6 as amended: on a missing linked answers record, the Health &
Fitness scorer returns `(0, 7)` and the Documentation scorer `(0, 17)` —
earned zero with the nominal full max — but every vehicle-check scorer
(including Brakes & Steering) returns `(0, 0)`: earned zero with `max = 0`
and `questions = 0`, not the nominal count. None of them raises. -/
theorem missing_section_scorer_defaults (insp : Inspection) :
    (insp.health_fitness = none →
      PreTripScoreSummary.calculate_health_fitness_score_new insp.health_fitness
        = (0, 7, 7, 0))
    ∧ (insp.documentation = none →
      PreTripScoreSummary.calculate_documentation_score_new insp.documentation
        = (0, 17, 17, 0))
    ∧ (∀ check_type : VehicleCheckType, insp.checks_of check_type = [] →
      PreTripScoreSummary.calculate_vehicle_check_score_new insp check_type
        = (0, 0, 0, 0)) := by
  refine ⟨?_, ?_, ?_⟩
  · intro h
    rw [h]
    rfl
  · intro h
    rw [h]
    rfl
  · intro check_type h
    simp only [PreTripScoreSummary.calculate_vehicle_check_score_new, h,
      SCORE_PER_QUESTION, TOTAL_PRECHECKLIST_QUESTIONS]
    norm_num

/-- Witness for the amended C6, at the fully-empty inspection. -/
theorem missing_section_scorer_defaults_witness :
    PreTripScoreSummary.calculate_health_fitness_score_new
        example_empty_inspection.health_fitness = (0, 7, 7, 0)
    ∧ PreTripScoreSummary.calculate_documentation_score_new
        example_empty_inspection.documentation = (0, 17, 17, 0)
    ∧ PreTripScoreSummary.calculate_vehicle_check_score_new example_empty_inspection
        VehicleCheckType.exterior = (0, 0, 0, 0) := by
  have h := missing_section_scorer_defaults example_empty_inspection
  exact ⟨h.1 rfl, h.2.1 rfl, h.2.2 VehicleCheckType.exterior rfl⟩

/-! ### Claim C7: the final combiner tolerates a missing side -/

/-- Claim C7: when the pre-trip summary (resp. the post-checklist summary)
is absent at combination time, the final combiner defaults that side to
score 0, max 64 (resp. 28), percentage 0, weighted contribution 0, and the
final percentage still equals the remaining side's weighted contribution;
with both sides absent the final percentage is 0 and the status FAILED. -/
theorem final_combiner_missing_side_defaults
    (sp : PreTripScoreSummary) (ps : PostChecklistScoreSummary) :
    ((FinalScoreSummary.calculate_final_score none (some ps)).pre_checklist_score = 0
      ∧ (FinalScoreSummary.calculate_final_score none (some ps)).pre_checklist_max = 64
      ∧ (FinalScoreSummary.calculate_final_score none (some ps)).pre_checklist_percentage = 0
      ∧ (FinalScoreSummary.calculate_final_score none (some ps)).pre_checklist_weighted = 0
      ∧ (FinalScoreSummary.calculate_final_score none (some ps)).final_percentage
          = (FinalScoreSummary.calculate_final_score none (some ps)).post_checklist_weighted)
    ∧ ((FinalScoreSummary.calculate_final_score (some sp) none).post_checklist_score = 0
      ∧ (FinalScoreSummary.calculate_final_score (some sp) none).post_checklist_max = 28
      ∧ (FinalScoreSummary.calculate_final_score (some sp) none).post_checklist_percentage = 0
      ∧ (FinalScoreSummary.calculate_final_score (some sp) none).post_checklist_weighted = 0
      ∧ (FinalScoreSummary.calculate_final_score (some sp) none).final_percentage
          = (FinalScoreSummary.calculate_final_score (some sp) none).pre_checklist_weighted)
    ∧ ((FinalScoreSummary.calculate_final_score none none).final_percentage = 0
      ∧ (FinalScoreSummary.calculate_final_score none none).final_status
          = FinalStatus.failed) := by
  refine ⟨⟨rfl, rfl, rfl, ?_, ?_⟩, ⟨rfl, rfl, rfl, ?_, ?_⟩, ?_, ?_⟩
  · rfl
  · show (0 : ℚ) + round2 (ps.score_percentage / 100 * 50)
      = round2 (ps.score_percentage / 100 * 50)
    ring
  · rfl
  · show round2 (sp.score_percentage / 100 * 50) + (0 : ℚ)
      = round2 (sp.score_percentage / 100 * 50)
    ring
  · show (0 : ℚ) + 0 = 0
    ring
  · show (if (70 : ℚ) ≤ 0 + 0 then FinalStatus.passed
      else if (50 : ℚ) ≤ 0 + 0 then FinalStatus.needs_review else FinalStatus.failed)
      = FinalStatus.failed
    norm_num

/-! ### Claim C9: the two coexisting Health & Fitness scorers -/

/-- The legacy scorer and the new counters award identical points. -/
theorem hf_calculate_score_earned_eq_counts (h : HealthFitnessCheck) :
    (HealthFitnessCheck.calculate_score h).1 = (HealthFitnessCheck.score_new_counts h).2 := by
  obtain ⟨r, a, t, f, m, n, fc⟩ := h
  rcases r with _ | (_ | _) <;> rcases a with _ | (_ | _) <;> rcases t with _ | (_ | _) <;>
    rcases f with _ | _ <;> rcases m with _ | _ <;> rcases n with _ | _ <;>
    rcases fc with _ | _ <;> decide

/-- The new counters count 4 mandatory questions plus one per answered
optional field. -/
theorem hf_counts_questions_formula (h : HealthFitnessCheck) :
    (HealthFitnessCheck.score_new_counts h).1
      = 4 + (if h.adequate_rest.isSome then 1 else 0)
          + (if h.alcohol_test_status.isSome then 1 else 0)
          + (if h.temperature_check_status.isSome then 1 else 0) := by
  obtain ⟨r, a, t, f, m, n, fc⟩ := h
  rcases r with _ | (_ | _) <;> rcases a with _ | (_ | _) <;> rcases t with _ | (_ | _) <;>
    rcases f with _ | _ <;> rcases m with _ | _ <;> rcases n with _ | _ <;>
    rcases fc with _ | _ <;> decide

/-- Counterexample to C9 as stated: with `adequate_rest` unanswered the two
scorers disagree on the max — the legacy scorer says 7, the new scorer 6. -/
theorem health_scorers_disagree_on_max :
    (HealthFitnessCheck.calculate_score example_rest_unanswered).2.1 = 7
    ∧ (PreTripScoreSummary.calculate_health_fitness_score_new
        (some example_rest_unanswered)).2.1 = 6
    ∧ ((HealthFitnessCheck.calculate_score example_rest_unanswered).2.1 : ℚ)
        ≠ (PreTripScoreSummary.calculate_health_fitness_score_new
            (some example_rest_unanswered)).2.1 := by
  have h2 : (PreTripScoreSummary.calculate_health_fitness_score_new
      (some example_rest_unanswered)).2.1 = 6 := by
    have e : (PreTripScoreSummary.calculate_health_fitness_score_new
        (some example_rest_unanswered)).2.1
        = ((HealthFitnessCheck.score_new_counts example_rest_unanswered).1 : ℚ)
          * SCORE_PER_QUESTION := rfl
    rw [e, show (HealthFitnessCheck.score_new_counts example_rest_unanswered).1 = 6 by decide]
    norm_num [SCORE_PER_QUESTION]
  refine ⟨rfl, h2, ?_⟩
  rw [h2, show (HealthFitnessCheck.calculate_score example_rest_unanswered).2.1 = 7 from rfl]
  norm_num

/-- Claim C9 as amended: `HealthFitnessCheck.calculate_score` and
`PreTripScoreSummary.calculate_health_fitness_score_new` always return the
same earned points; the legacy max is the constant 7, while the new max is
4 plus the number of answered optional fields (`adequate_rest`,
`alcohol_test_status`, `temperature_check_status`) — so the two max values
agree exactly when all three optional fields are answered. -/
theorem health_scorers_agreement (h : HealthFitnessCheck) :
    ((HealthFitnessCheck.calculate_score h).1 : ℚ)
        = (PreTripScoreSummary.calculate_health_fitness_score_new (some h)).1
    ∧ (HealthFitnessCheck.calculate_score h).2.1 = 7
    ∧ (PreTripScoreSummary.calculate_health_fitness_score_new (some h)).2.1
        = ((4 + (if h.adequate_rest.isSome then 1 else 0)
            + (if h.alcohol_test_status.isSome then 1 else 0)
            + (if h.temperature_check_status.isSome then 1 else 0) : ℕ) : ℚ) := by
  refine ⟨?_, rfl, ?_⟩
  · have e : (PreTripScoreSummary.calculate_health_fitness_score_new (some h)).1
        = ((HealthFitnessCheck.score_new_counts h).2 : ℚ) * SCORE_PER_QUESTION := rfl
    rw [e, hf_calculate_score_earned_eq_counts h]
    simp [SCORE_PER_QUESTION]
  · have e : (PreTripScoreSummary.calculate_health_fitness_score_new (some h)).2.1
        = ((HealthFitnessCheck.score_new_counts h).1 : ℚ) * SCORE_PER_QUESTION := rfl
    rw [e, hf_counts_questions_formula h]
    simp [SCORE_PER_QUESTION]

/-! ### Claim C10: an unanswered `adequate_rest` -/

/-- The 'Inadequate Rest' failure is reported exactly when the linked health
record exists and its `adequate_rest` is exactly `False`. -/
theorem inadequate_rest_message_iff (insp : Inspection) :
    "Inadequate Rest (less than 8 hours)"
        ∈ PreTripScoreSummary.check_critical_failures insp
      ↔ ∃ hc : HealthFitnessCheck,
          insp.health_fitness = some hc ∧ hc.adequate_rest = some false := by
  unfold PreTripScoreSummary.check_critical_failures
  simp only [List.nil_append, List.mem_append]
  constructor
  · intro hmem
    rcases hmem with hh | hv
    · rcases hhf : insp.health_fitness with _ | hc
      · rw [hhf] at hh
        simp [PreTripScoreSummary.health_critical_failures] at hh
      · rw [hhf] at hh
        simp only [PreTripScoreSummary.health_critical_failures] at hh
        refine ⟨hc, rfl, ?_⟩
        by_contra hne
        rw [if_neg hne] at hh
        split_ifs at hh <;> simp at hh
    · exfalso
      simp only [List.mem_flatMap, List.mem_filterMap] at hv
      obtain ⟨checks, hchecks, check, hcheck, heq⟩ := hv
      split_ifs at heq with hcond
      obtain ⟨hitem, hstat⟩ := hcond
      simp only [critical_items, List.mem_cons, List.not_mem_nil, or_false] at hitem
      rcases hitem with h1 | h1 | h1 | h1 | h1 | h1 | h1 <;>
        rw [h1] at heq <;> exact absurd heq (by decide)
  · rintro ⟨hc, hh, hr⟩
    left
    rw [hh]
    simp [PreTripScoreSummary.health_critical_failures, hr]

/-- Claim C10: with `adequate_rest` unanswered (and the other two optional
fields answered) the new scorer excludes the question from both earned and
max — max and questions become 6 of the nominal 7, and earned is the sum of
the remaining six indicators — and the Critical Failure Detector reports
'Inadequate Rest (less than 8 hours)' exactly when `adequate_rest` is
`False`, never when it is unanswered. -/
theorem unanswered_rest_handling (h : HealthFitnessCheck) (insp : Inspection)
    (hrest : h.adequate_rest = none)
    (halc : h.alcohol_test_status.isSome = true)
    (htemp : h.temperature_check_status.isSome = true) :
    (PreTripScoreSummary.calculate_health_fitness_score_new (some h)).2.1 = 6
    ∧ (PreTripScoreSummary.calculate_health_fitness_score_new (some h)).2.2.1 = 6
    ∧ (PreTripScoreSummary.calculate_health_fitness_score_new (some h)).1
        = (((if h.alcohol_test_status = some HealthCheckStatus.pass then 1 else 0)
            + (if h.temperature_check_status = some HealthCheckStatus.pass then 1 else 0)
            + (if h.fit_for_duty then 1 else 0)
            + (if h.no_health_impairment then 1 else 0)
            + (if h.fatigue_checklist_completed then 1 else 0)
            + (if h.medication_status = false then 1 else 0) : ℕ) : ℚ)
    ∧ ("Inadequate Rest (less than 8 hours)"
          ∈ PreTripScoreSummary.check_critical_failures insp
        ↔ ∃ hc : HealthFitnessCheck,
            insp.health_fitness = some hc ∧ hc.adequate_rest = some false) := by
  obtain ⟨r, a, t, f, m, n, fc⟩ := h
  have hr : r = none := hrest
  subst hr
  rcases a with _ | a
  · simp at halc
  rcases t with _ | t
  · simp at htemp
  refine ⟨?_, ?_, ?_, inadequate_rest_message_iff insp⟩
  · have e : (PreTripScoreSummary.calculate_health_fitness_score_new
        (some ⟨none, some a, some t, f, m, n, fc⟩)).2.1
        = ((HealthFitnessCheck.score_new_counts ⟨none, some a, some t, f, m, n, fc⟩).1 : ℚ)
          * SCORE_PER_QUESTION := rfl
    rw [e, show (HealthFitnessCheck.score_new_counts
      ⟨none, some a, some t, f, m, n, fc⟩).1 = 6 from rfl]
    norm_num [SCORE_PER_QUESTION]
  · rfl
  · have e : (PreTripScoreSummary.calculate_health_fitness_score_new
        (some ⟨none, some a, some t, f, m, n, fc⟩)).1
        = ((HealthFitnessCheck.score_new_counts ⟨none, some a, some t, f, m, n, fc⟩).2 : ℚ)
          * SCORE_PER_QUESTION := rfl
    rw [e]
    rcases a with _ | _ <;> rcases t with _ | _ <;> rcases f with _ | _ <;>
      rcases m with _ | _ <;> rcases n with _ | _ <;> rcases fc with _ | _ <;>
      (norm_num [HealthFitnessCheck.score_new_counts, SCORE_PER_QUESTION]; try simp)

/-- Witness for C10 at concrete records: the unanswered-rest record scores
max 6, the detector fires on `adequate_rest = False` and stays silent on
`adequate_rest = None`. -/
theorem unanswered_rest_handling_witness :
    (PreTripScoreSummary.calculate_health_fitness_score_new
        (some example_rest_unanswered)).2.1 = 6
    ∧ "Inadequate Rest (less than 8 hours)"
        ∈ PreTripScoreSummary.check_critical_failures example_rest_failed_inspection
    ∧ ¬("Inadequate Rest (less than 8 hours)"
        ∈ PreTripScoreSummary.check_critical_failures example_rest_unanswered_inspection) := by
  have h1 := unanswered_rest_handling example_rest_unanswered
    example_rest_failed_inspection rfl rfl rfl
  have h2 := unanswered_rest_handling example_rest_unanswered
    example_rest_unanswered_inspection rfl rfl rfl
  refine ⟨h1.1, h1.2.2.2.mpr ⟨{ example_full_health with adequate_rest := some false },
    rfl, rfl⟩, ?_⟩
  intro hmem
  obtain ⟨hc, hh, hr⟩ := h2.2.2.2.mp hmem
  have hh' : some example_rest_unanswered = some hc := hh
  obtain rfl : example_rest_unanswered = hc := Option.some.inj hh'
  exact absurd hr (by decide)

/-! ### Claim C8: scorer and summary invariants -/

/-- Bounds of the Health & Fitness scorer: `0 ≤ earned ≤ max`. -/
theorem hf_new_score_bounds (hf : Option HealthFitnessCheck) :
    0 ≤ (PreTripScoreSummary.calculate_health_fitness_score_new hf).1
    ∧ (PreTripScoreSummary.calculate_health_fitness_score_new hf).1
        ≤ (PreTripScoreSummary.calculate_health_fitness_score_new hf).2.1 := by
  match hf with
  | Option.none =>
      exact ⟨le_refl 0,
        by norm_num [PreTripScoreSummary.calculate_health_fitness_score_new]⟩
  | Option.some h =>
      have e1 : (PreTripScoreSummary.calculate_health_fitness_score_new (some h)).1
          = ((HealthFitnessCheck.score_new_counts h).2 : ℚ) * SCORE_PER_QUESTION := rfl
      have e2 : (PreTripScoreSummary.calculate_health_fitness_score_new (some h)).2.1
          = ((HealthFitnessCheck.score_new_counts h).1 : ℚ) * SCORE_PER_QUESTION := rfl
      have hle := hf_counts_passed_le_questions h
      constructor
      · rw [e1]
        simp [SCORE_PER_QUESTION]
      · rw [e1, e2]
        simp only [SCORE_PER_QUESTION, mul_one]
        exact_mod_cast hle

/-- Bounds of the Documentation scorer: `0 ≤ earned ≤ max`. -/
theorem doc_new_score_bounds (d : Option DocumentationCompliance) :
    0 ≤ (PreTripScoreSummary.calculate_documentation_score_new d).1
    ∧ (PreTripScoreSummary.calculate_documentation_score_new d).1
        ≤ (PreTripScoreSummary.calculate_documentation_score_new d).2.1 := by
  match d with
  | Option.none =>
      exact ⟨le_refl 0,
        by norm_num [PreTripScoreSummary.calculate_documentation_score_new]⟩
  | Option.some doc =>
      have e1 : (PreTripScoreSummary.calculate_documentation_score_new (some doc)).1
          = ((doc.score_new_answers.count true : ℕ) : ℚ) * SCORE_PER_QUESTION := rfl
      have e2 : (PreTripScoreSummary.calculate_documentation_score_new (some doc)).2.1
          = ((doc.score_new_answers.length : ℕ) : ℚ) * SCORE_PER_QUESTION := rfl
      have hle : doc.score_new_answers.count true ≤ doc.score_new_answers.length :=
        List.count_le_length true doc.score_new_answers
      constructor
      · rw [e1]
        simp [SCORE_PER_QUESTION]
      · rw [e1, e2]
        simp only [SCORE_PER_QUESTION, mul_one]
        exact_mod_cast hle

/-- Bounds of the vehicle-check scorer: `0 ≤ earned ≤ max`. -/
theorem vehicle_new_score_bounds (insp : Inspection) (check_type : VehicleCheckType) :
    0 ≤ (PreTripScoreSummary.calculate_vehicle_check_score_new insp check_type).1
    ∧ (PreTripScoreSummary.calculate_vehicle_check_score_new insp check_type).1
        ≤ (PreTripScoreSummary.calculate_vehicle_check_score_new insp check_type).2.1 := by
  have e1 : (PreTripScoreSummary.calculate_vehicle_check_score_new insp check_type).1
      = ((((insp.checks_of check_type).filter
            (fun c => c.status == CheckStatus.pass)).length : ℕ) : ℚ)
        * SCORE_PER_QUESTION := rfl
  have e2 : (PreTripScoreSummary.calculate_vehicle_check_score_new insp check_type).2.1
      = (if 0 < (insp.checks_of check_type).length
         then (((insp.checks_of check_type).length : ℕ) : ℚ) * SCORE_PER_QUESTION
         else 0) := rfl
  have hle := List.length_filter_le (fun c => c.status == CheckStatus.pass)
    (insp.checks_of check_type)
  constructor
  · rw [e1]
    simp [SCORE_PER_QUESTION]
  · rw [e1, e2]
    by_cases hq : 0 < (insp.checks_of check_type).length
    · rw [if_pos hq]
      simp only [SCORE_PER_QUESTION, mul_one]
      exact_mod_cast hle
    · rw [if_neg hq]
      have h0 : (insp.checks_of check_type).length = 0 := by omega
      have h1 : ((insp.checks_of check_type).filter
          (fun c => c.status == CheckStatus.pass)).length = 0 := by omega
      rw [h1]
      simp

/-- The inline section-percentage expression is well-behaved whenever
`0 ≤ earned ≤ max`. -/
theorem section_pct_bounds (e m : ℚ) (h0 : 0 ≤ e) (h1 : e ≤ m) :
    0 ≤ section_pct e m ∧ section_pct e m ≤ 100
    ∧ (0 < m → section_pct e m = round2 (e / m * 100))
    ∧ (m = 0 → section_pct e m = 0) := by
  unfold section_pct
  by_cases hm : 0 < m
  · rw [if_pos hm]
    have ha0 : 0 ≤ e / m * 100 := by positivity
    have hdiv : e / m ≤ 1 := div_le_one_of_le₀ h1 (le_of_lt hm)
    have ha1 : e / m * 100 ≤ ((100 : ℤ) : ℚ) := by push_cast; nlinarith
    refine ⟨round2_nonneg ha0, ?_, fun _ => rfl, fun hm0 => ?_⟩
    · have h2 := round2_le_intCast ha1
      exact_mod_cast h2
    · rw [hm0] at hm
      exact absurd hm (lt_irrefl 0)
  · rw [if_neg hm]
    exact ⟨le_refl 0, by norm_num, fun hc => absurd hc hm, fun _ => rfl⟩

/-- Claim C8: in every computed pre-trip summary each section satisfies
`0 ≤ earned ≤ max`, the totals satisfy `0 ≤ total ≤ max_total`, the overall
percentage is `round(total/max*100, 2)` guarded by `max > 0` (else 0) and
lies in [0, 100], and the inline section-percentage expression maps any
`0 ≤ earned ≤ max` into [0, 100], returning 0 instead of dividing when
`max = 0`. -/
theorem scoring_invariants (insp : Inspection) (s : PreTripScoreSummary)
    (hs : s = PreTripScoreSummary.calculate_all_scores insp) :
    (0 ≤ s.health_fitness.score ∧ s.health_fitness.score ≤ s.health_fitness.max)
    ∧ (0 ≤ s.documentation.score ∧ s.documentation.score ≤ s.documentation.max)
    ∧ (0 ≤ s.vehicle_exterior.score ∧ s.vehicle_exterior.score ≤ s.vehicle_exterior.max)
    ∧ (0 ≤ s.engine_fluid.score ∧ s.engine_fluid.score ≤ s.engine_fluid.max)
    ∧ (0 ≤ s.interior_cabin.score ∧ s.interior_cabin.score ≤ s.interior_cabin.max)
    ∧ (0 ≤ s.functional.score ∧ s.functional.score ≤ s.functional.max)
    ∧ (0 ≤ s.safety_equipment.score ∧ s.safety_equipment.score ≤ s.safety_equipment.max)
    ∧ (0 ≤ s.brakes_steering.score ∧ s.brakes_steering.score ≤ s.brakes_steering.max)
    ∧ (0 ≤ s.total_score ∧ s.total_score ≤ s.max_possible_score)
    ∧ s.score_percentage
        = (if 0 < s.max_possible_score
           then round2 (s.total_score / s.max_possible_score * 100) else 0)
    ∧ (0 ≤ s.score_percentage ∧ s.score_percentage ≤ 100)
    ∧ (∀ e m : ℚ, 0 ≤ e → e ≤ m →
        0 ≤ section_pct e m ∧ section_pct e m ≤ 100
        ∧ (0 < m → section_pct e m = round2 (e / m * 100))
        ∧ (m = 0 → section_pct e m = 0)) := by
  subst hs
  have h1 := hf_new_score_bounds insp.health_fitness
  have h2 := doc_new_score_bounds insp.documentation
  have h3 := vehicle_new_score_bounds insp VehicleCheckType.exterior
  have h4 := vehicle_new_score_bounds insp VehicleCheckType.engine
  have h5 := vehicle_new_score_bounds insp VehicleCheckType.interior
  have h6 := vehicle_new_score_bounds insp VehicleCheckType.functional
  have h7 := vehicle_new_score_bounds insp VehicleCheckType.safety
  have h8 := vehicle_new_score_bounds insp VehicleCheckType.brakes_steering
  have htot0 : 0 ≤ (PreTripScoreSummary.calculate_all_scores insp).total_score := by
    show 0 ≤ (PreTripScoreSummary.calculate_health_fitness_score_new insp.health_fitness).1
      + (PreTripScoreSummary.calculate_documentation_score_new insp.documentation).1
      + (PreTripScoreSummary.calculate_vehicle_check_score_new insp VehicleCheckType.exterior).1
      + (PreTripScoreSummary.calculate_vehicle_check_score_new insp VehicleCheckType.engine).1
      + (PreTripScoreSummary.calculate_vehicle_check_score_new insp VehicleCheckType.interior).1
      + (PreTripScoreSummary.calculate_vehicle_check_score_new insp
          VehicleCheckType.functional).1
      + (PreTripScoreSummary.calculate_vehicle_check_score_new insp VehicleCheckType.safety).1
      + (PreTripScoreSummary.calculate_vehicle_check_score_new insp
          VehicleCheckType.brakes_steering).1
    linarith [h1.1, h2.1, h3.1, h4.1, h5.1, h6.1, h7.1, h8.1]
  have htot1 : (PreTripScoreSummary.calculate_all_scores insp).total_score
      ≤ (PreTripScoreSummary.calculate_all_scores insp).max_possible_score := by
    show (PreTripScoreSummary.calculate_health_fitness_score_new insp.health_fitness).1
      + (PreTripScoreSummary.calculate_documentation_score_new insp.documentation).1
      + (PreTripScoreSummary.calculate_vehicle_check_score_new insp VehicleCheckType.exterior).1
      + (PreTripScoreSummary.calculate_vehicle_check_score_new insp VehicleCheckType.engine).1
      + (PreTripScoreSummary.calculate_vehicle_check_score_new insp VehicleCheckType.interior).1
      + (PreTripScoreSummary.calculate_vehicle_check_score_new insp
          VehicleCheckType.functional).1
      + (PreTripScoreSummary.calculate_vehicle_check_score_new insp VehicleCheckType.safety).1
      + (PreTripScoreSummary.calculate_vehicle_check_score_new insp
          VehicleCheckType.brakes_steering).1
      ≤ (PreTripScoreSummary.calculate_health_fitness_score_new insp.health_fitness).2.1
      + (PreTripScoreSummary.calculate_documentation_score_new insp.documentation).2.1
      + (PreTripScoreSummary.calculate_vehicle_check_score_new insp
          VehicleCheckType.exterior).2.1
      + (PreTripScoreSummary.calculate_vehicle_check_score_new insp VehicleCheckType.engine).2.1
      + (PreTripScoreSummary.calculate_vehicle_check_score_new insp
          VehicleCheckType.interior).2.1
      + (PreTripScoreSummary.calculate_vehicle_check_score_new insp
          VehicleCheckType.functional).2.1
      + (PreTripScoreSummary.calculate_vehicle_check_score_new insp VehicleCheckType.safety).2.1
      + (PreTripScoreSummary.calculate_vehicle_check_score_new insp
          VehicleCheckType.brakes_steering).2.1
    linarith [h1.2, h2.2, h3.2, h4.2, h5.2, h6.2, h7.2, h8.2]
  refine ⟨h1, h2, h3, h4, h5, h6, h7, h8, ⟨htot0, htot1⟩, rfl, ⟨?_, ?_⟩, section_pct_bounds⟩
  · exact (section_pct_bounds _ _ htot0 htot1).1
  · exact (section_pct_bounds _ _ htot0 htot1).2.1

/-- Witness for C8 at a concrete inspection. -/
theorem scoring_invariants_witness :
    0 ≤ (PreTripScoreSummary.calculate_all_scores example_empty_inspection).total_score
    ∧ (PreTripScoreSummary.calculate_all_scores example_empty_inspection).total_score
        ≤ (PreTripScoreSummary.calculate_all_scores example_empty_inspection).max_possible_score
    ∧ 0 ≤ (PreTripScoreSummary.calculate_all_scores example_empty_inspection).score_percentage
    ∧ (PreTripScoreSummary.calculate_all_scores
        example_empty_inspection).score_percentage ≤ 100 := by
  have h := scoring_invariants example_empty_inspection
    (PreTripScoreSummary.calculate_all_scores example_empty_inspection) rfl
  exact ⟨h.2.2.2.2.2.2.2.2.1.1, h.2.2.2.2.2.2.2.2.1.2,
    h.2.2.2.2.2.2.2.2.2.2.1.1, h.2.2.2.2.2.2.2.2.2.2.1.2⟩
